import Mathlib

/-!
# SecGram identity-pool and crawl-orchestration engine: formal model

Shallow embedding of the scrapper service of the SecGram repository
(`services/scrapper_service/`): the SQLite state manipulated by
`dbstate.py`, the account queue of `account_manager.py`, and the
scheduler decisions of `telegram_scraper.py`.  SQL tables become lists
of rows, wall-clock reads (`time.time()`) become an explicit `now`
argument, and the async control flow of the scraper becomes functions
from an error scenario to the list of actions the handler performs.
-/

set_option autoImplicit false

namespace SecGram

/-! ## Data model: the SQLite tables of `dbstate.py` (`init_db`) -/

/-- A row of the `accounts` table: `account_name` is the primary key and
`status` ranges over `available`, `crawling`, `banned`. -/
structure AccountRow where
  account_name : String
  api_id : Int
  api_hash : String
  status : String
deriving DecidableEq, Repr

/-- A row of the `account_channels` table (channel membership), keyed by
`(account_name, channel_id)`. -/
structure MembershipRow where
  account_name : String
  channel_id : String
  joined_at : Int
  last_crawled : Int
deriving DecidableEq, Repr

/-- A row of the `crawl_locks` table: `channel_id` is the primary key, so
the table holds at most one row per channel. -/
structure LockRow where
  channel_id : String
  locked_by_session : String
  locked_at : Int
deriving DecidableEq, Repr

/-- The whole database state of `dbstate.py`. -/
structure DBState where
  accounts : List AccountRow
  account_channels : List MembershipRow
  crawl_locks : List LockRow
deriving DecidableEq, Repr

/-- `SELECT locked_at, ... FROM crawl_locks WHERE channel_id = ?` followed by
`fetchone()`. -/
def findLock (st : DBState) (channel_id : String) : Option LockRow :=
  st.crawl_locks.find? (fun r => r.channel_id == channel_id)

/-- `SELECT channel_id FROM account_channels WHERE account_name = ? AND
channel_id = ?` turned into a Boolean existence check (`fetchone()` is
non-null). -/
def hasMembership (st : DBState) (account_name channel_id : String) : Bool :=
  st.account_channels.any
    (fun r => r.account_name == account_name && r.channel_id == channel_id)

/-- The primary-key invariant on `crawl_locks`: at most one row per
`channel_id`. -/
def locksUnique (st : DBState) : Prop :=
  (st.crawl_locks.map (fun r => r.channel_id)).Nodup

/-! ## `dbstate.py` operations -/

/-- `dbstate.is_channel_locked(db_path, channel_id, timeout=300)`.

Reads the lock row for `channel_id`; if one exists and
`now - locked_at > timeout` it DELETEs that row and returns `False`;
otherwise it returns whether a row exists.  The returned pair is
(result, database state after the call). -/
def is_channel_locked (st : DBState) (channel_id : String) (timeout : Int)
    (now : Int) : Bool × DBState :=
  match st.crawl_locks.find? (fun r => r.channel_id == channel_id) with
  | some row =>
      if now - row.locked_at > timeout then
        (false, { st with crawl_locks :=
          st.crawl_locks.filter (fun r => !(r.channel_id == channel_id)) })
      else
        (true, st)
  | none => (false, st)

/-- `dbstate.lock_channel(db_path, channel_id, account_name)`.

Returns `False` (state unchanged) when no `account_channels` row exists for
`(account_name, channel_id)`; otherwise performs
`INSERT OR REPLACE INTO crawl_locks` with `locked_at = int(time.time())`
and returns `True`.  Note the function takes no timeout and never reads the
existing lock row. -/
def lock_channel (st : DBState) (channel_id : String) (account_name : String)
    (now : Int) : Bool × DBState :=
  if hasMembership st account_name channel_id then
    (true, { st with crawl_locks :=
      ⟨channel_id, account_name, now⟩ ::
        st.crawl_locks.filter (fun r => !(r.channel_id == channel_id)) })
  else
    (false, st)

/-- `dbstate.unlock_channel(db_path, channel_id)`: unconditional DELETE of the
lock row for `channel_id`. -/
def unlock_channel (st : DBState) (channel_id : String) : DBState :=
  { st with crawl_locks :=
      st.crawl_locks.filter (fun r => !(r.channel_id == channel_id)) }

/-- `dbstate.update_channel_crawl(db_path, account_name, channel_id,
last_crawled)`: `UPDATE account_channels SET last_crawled = ? WHERE
account_name = ? AND channel_id = ?` — an UPDATE, never an INSERT. -/
def update_channel_crawl (st : DBState) (account_name channel_id : String)
    (last_crawled : Int) : DBState :=
  { st with account_channels :=
      st.account_channels.map (fun r =>
        if r.account_name == account_name && r.channel_id == channel_id then
          { r with last_crawled := last_crawled }
        else r) }

/-- `dbstate.get_available_accounts(db_path)`: names of accounts whose status
is `available`. -/
def get_available_accounts (st : DBState) : List String :=
  (st.accounts.filter (fun r => r.status == "available")).map
    (fun r => r.account_name)

/-! ## `account_manager.py`: the account queue and ban handling

The `AccountManager` of `account_manager.py` keeps a second schema: an
`accounts` table keyed by `phone` with `status IN ('active', 'banned')`,
read through `Account._get_account_status` (default `active` when no row
exists) and written through `Account._update_account_status`.  We model
that table as an association list from phone to status. -/

/-- `Account._get_account_status`: `SELECT status FROM accounts WHERE
phone = ?`; returns `active` when no row is found. -/
def get_status (tbl : List (String × String)) (name : String) : String :=
  match tbl.find? (fun p => p.1 == name) with
  | some p => p.2
  | none => "active"

/-- `Account._update_account_status`: `UPDATE accounts SET status = ? WHERE
phone = ?` — rewrites matching rows, inserts nothing. -/
def update_account_status (tbl : List (String × String)) (name status : String) :
    List (String × String) :=
  tbl.map (fun p => if p.1 == name then (p.1, status) else p)

/-- Result of `AccountManager.get_active_account`: the returned account
(`none` models the final `raise RuntimeError("No available accounts")`),
the queue contents after the call, and the arguments of the
`send_ban_notification` calls made along the way. -/
structure AcquireResult where
  acquired : Option String
  queue : List String
  notifications : List String
deriving DecidableEq, Repr

/-- The `while not self.account_queue.empty()` loop of
`AccountManager.get_active_account`, recursing over the queue contents:
pop the head; if its status is not `banned`, put it back (at the tail of
the queue) and return it; otherwise notify (when an email configuration is
present) and continue with the rest.  When the queue runs out, notify
for "All accounts" and raise. -/
def acquire_scan (tbl : List (String × String)) (email_config : Bool) :
    List String → AcquireResult
  | [] => ⟨none, [], if email_config then ["All accounts"] else []⟩
  | a :: rest =>
      if get_status tbl a != "banned" then
        ⟨some a, rest ++ [a], []⟩
      else
        let r := acquire_scan tbl email_config rest
        ⟨r.acquired, r.queue, (if email_config then [a] else []) ++ r.notifications⟩

/-- `AccountManager.get_active_account` on a manager whose status table is
`tbl` and whose queue currently holds `queue`.  The returned pair is the
loop result together with the status table after the call; the loop body
contains reads of the status (`account.get_status()`) but no UPDATE, so
the table after the call is the table it started with. -/
def get_active_account (tbl : List (String × String)) (email_config : Bool)
    (queue : List String) : AcquireResult × List (String × String) :=
  (acquire_scan tbl email_config queue, tbl)

/-- Character-list helper for the Python `in` operator on strings:
`leadsChars n h` holds when `n` is an initial segment of `h`. -/
def leadsChars : List Char → List Char → Bool
  | [], _ => true
  | _ :: _, [] => false
  | a :: as, b :: bs => a == b && leadsChars as bs

/-- Character-list helper: `needle` occurs contiguously inside the second
argument. -/
def hasSubChars (needle : List Char) : List Char → Bool
  | [] => leadsChars needle []
  | c :: cs => leadsChars needle (c :: cs) || hasSubChars needle cs

/-- The Python expression `needle in hay` on strings. -/
def strContains (hay needle : String) : Bool :=
  hasSubChars needle.toList hay.toList

/-- Outcome of the `GetHistoryRequest` call inside
`Account.scrape_messages`: either a list of message texts or a raised
exception rendered as `str(e)`. -/
inductive FetchOutcome where
  | ok (texts : List String)
  | err (msg : String)
deriving DecidableEq, Repr

/-- Result of `Account.scrape_messages`: the returned message texts, the
final `self.is_banned` flag, the status table after the call, and the
ban notifications sent by the call itself. -/
structure ScrapeResult where
  messages : List String
  is_banned : Bool
  statusTable : List (String × String)
  notifications : List String
deriving DecidableEq, Repr

/-- `Account.scrape_messages(channel, limit)` for account `name` whose
current `self.is_banned` flag is `is_banned`, over status table `tbl`.

A banned account returns `[]` at once.  Otherwise, on success the
messages with non-empty text are returned; on an exception whose string
contains `FloodWait` or `UserBannedInChannel` the account sets
`self.is_banned = True` and persists status `banned`; any other exception
is only logged.  No branch calls `send_ban_notification`. -/
def scrape_messages (tbl : List (String × String)) (name : String)
    (is_banned : Bool) (outcome : FetchOutcome) : ScrapeResult :=
  if is_banned then
    ⟨[], is_banned, tbl, []⟩
  else
    match outcome with
    | .ok texts => ⟨texts.filter (fun t => t != ""), is_banned, tbl, []⟩
    | .err m =>
        if strContains m "FloodWait" || strContains m "UserBannedInChannel" then
          ⟨[], true, update_account_status tbl name "banned", []⟩
        else
          ⟨[], is_banned, tbl, []⟩

/-- The status write performed by the ban path of
`Account.scrape_messages` (`self._update_account_status('banned')`). -/
def mark_banned (tbl : List (String × String)) (name : String) :
    List (String × String) :=
  update_account_status tbl name "banned"

/-! ## `telegram_scraper.py`: scheduler decisions -/

/-- `NORMAL_INTERVAL` (seconds). -/
def NORMAL_INTERVAL : Nat := 3600

/-- `FALLBACK_INTERVAL` (seconds). -/
def FALLBACK_INTERVAL : Nat := 21600

/-- `FALLBACK_CHANNEL_LIMIT`: maximal number of channels scraped per cycle
in fallback mode. -/
def FALLBACK_CHANNEL_LIMIT : Nat := 5

/-- Modelled from the spec: `AccountManager.active_count` is invoked by the
scheduler loop of `telegram_scraper.py` but its definition is not in the
source tree; the spec defines `activeCount()` as the count of non-Banned
identities. -/
def active_count (tbl : List (String × String)) : Nat :=
  (tbl.filter (fun p => p.2 != "banned")).length

/-- The per-cycle tier and channel selection of `telegram_scraper.main`
(the `if active_accounts < 1 / == 1 / else` ladder): returns `none` when
the loop breaks because no account is active, and otherwise the pair of
the sleep interval and the channel set scraped this cycle. -/
def select_cycle (active_accounts : Nat) (all_channels priority_channels : List String) :
    Option (Nat × List String) :=
  if active_accounts < 1 then
    none
  else if active_accounts == 1 then
    some (FALLBACK_INTERVAL,
      if priority_channels.isEmpty then
        all_channels.take FALLBACK_CHANNEL_LIMIT
      else
        priority_channels.take FALLBACK_CHANNEL_LIMIT)
  else
    some (NORMAL_INTERVAL, all_channels)

/-- Actions a scraper routine can perform, in order. -/
inductive SchedAction where
  | joinRequest (channel : String)
  | addChannelDb (channel : String)
  | sleepSeconds (d : ℚ)
  | markBannedAction (account : String)
  | fallbackEmail
  | redispatch (channel : String)
  | logOnly
deriving DecidableEq, Repr

/-- Whether an action is the inter-join delay. -/
def isSleep : SchedAction → Bool
  | .sleepSeconds _ => true
  | _ => false

/-- `Account.join_channel(channel)`: issues the `JoinChannelRequest`; when
it succeeds, records the channel in the database and sleeps
`random.uniform(3, 7)` seconds.  When the request raises, the exception
propagates before the database write and the sleep are reached.  `d` is
the value drawn by `random.uniform(3, 7)` on the success path. -/
def join_channel (channel : String) (join_ok : Bool) (d : ℚ) : List SchedAction :=
  if join_ok then
    [.joinRequest channel, .addChannelDb channel, .sleepSeconds d]
  else
    [.joinRequest channel]

/-- `telegram_scraper.join_channel(client, channel)`: issues the join; on
success sleeps `random.uniform(5, 15)` seconds and returns `True`; on
`RPCError` logs and returns `False` without sleeping.  `d` is the value
drawn by `random.uniform(5, 15)` on the success path. -/
def sched_join_channel (channel : String) (join_ok : Bool) (d : ℚ) :
    Bool × List SchedAction :=
  if join_ok then
    (true, [.joinRequest channel, .sleepSeconds d])
  else
    (false, [.joinRequest channel])

/-- The error scenarios dispatched by the `except` clauses of
`telegram_scraper.scrape_channel`. -/
inductive ScrapeError where
  | userBanned
  | floodWait (seconds : ℚ)
  | other
deriving DecidableEq, Repr

/-- The exception handling of `telegram_scraper.scrape_channel` for account
`account` on channel `channel`, given whether exactly one account remains
active after the ban (`lastActive`) and whether the replacement account
manages to join the channel (`rejoin_ok`):

* `UserBannedInChannelError`: mark the account banned, email when entering
  fallback, join with a fresh account and, when that join succeeds,
  re-dispatch the channel to it (the recursive `scrape_channel` call);
* `FloodWaitError`: log and `asyncio.sleep(e.seconds)` — nothing else: no
  release, no re-enqueue, no retry of the channel;
* any other exception: log only. -/
def scrape_channel_on_error (channel account : String)
    (lastActive rejoin_ok : Bool) : ScrapeError → List SchedAction
  | .userBanned =>
      [.markBannedAction account] ++
        (if lastActive then [.fallbackEmail] else []) ++
        [.joinRequest channel] ++
        (if rejoin_ok then [.redispatch channel] else [])
  | .floodWait s => [.sleepSeconds s]
  | .other => [.logOnly]

/-! ## General lemmas about the model -/

/-- Mapping a function that fixes every member of a list is the identity. -/
theorem map_id_of_mem {α : Type} (l : List α) (f : α → α)
    (h : ∀ a ∈ l, f a = a) : l.map f = l := by
  induction l with
  | nil => rfl
  | cons a l ih =>
      simp [h a (by simp), ih (fun x hx => h x (by simp [hx]))]

/-- Two maps agreeing on every member of a list are equal on it. -/
theorem map_congr_mem {α β : Type} (l : List α) (f g : α → β)
    (h : ∀ a ∈ l, f a = g a) : l.map f = l.map g := by
  induction l with
  | nil => rfl
  | cons a l ih =>
      simp [h a (by simp), ih (fun x hx => h x (by simp [hx]))]

/-- A row surviving the DELETE for channel `c` has a different key. -/
theorem mem_filter_lock_ne (l : List LockRow) (c : String) (r : LockRow)
    (h : r ∈ l.filter (fun r => !(r.channel_id == c))) : r.channel_id ≠ c := by
  have := List.of_mem_filter h
  simpa using this

/-- Deleting the rows of channel `c` keeps the primary-key invariant of the
lock table. -/
theorem nodup_filter_lock (l : List LockRow) (c : String)
    (h : (l.map (fun r => r.channel_id)).Nodup) :
    ((l.filter (fun r => !(r.channel_id == c))).map
      (fun r => r.channel_id)).Nodup := by
  exact h.sublist ((List.filter_sublist l).map (fun r => r.channel_id))

/-- The replaced channel key does not occur among the surviving rows. -/
theorem not_mem_map_filter_lock (l : List LockRow) (c : String) :
    c ∉ (l.filter (fun r => !(r.channel_id == c))).map
      (fun r => r.channel_id) := by
  intro hc
  rcases List.mem_map.mp hc with ⟨r, hr, hrc⟩
  exact mem_filter_lock_ne l c r hr hrc

/-- Scanning a queue whose leading entries are all banned drops and (when
an email configuration is present) notifies exactly those entries, then
returns the first non-banned entry, re-enqueued at the back. -/
theorem acquire_scan_drop_banned (tbl : List (String × String)) (email : Bool)
    (bs : List String) (a : String) (rest : List String)
    (hb : ∀ b ∈ bs, get_status tbl b = "banned")
    (ha : get_status tbl a ≠ "banned") :
    acquire_scan tbl email (bs ++ a :: rest) =
      ⟨some a, rest ++ [a], if email then bs else []⟩ := by
  induction bs with
  | nil =>
      cases email <;> simp [acquire_scan, ha]
  | cons b bs ih =>
      have hbb : get_status tbl b = "banned" := hb b (by simp)
      have h' : ∀ x ∈ bs, get_status tbl x = "banned" :=
        fun x hx => hb x (by simp [hx])
      have hstep : acquire_scan tbl email ((b :: bs) ++ a :: rest) =
          ⟨(acquire_scan tbl email (bs ++ a :: rest)).acquired,
            (acquire_scan tbl email (bs ++ a :: rest)).queue,
            (if email then [b] else []) ++
              (acquire_scan tbl email (bs ++ a :: rest)).notifications⟩ := by
        simp [acquire_scan, hbb]
      rw [hstep, ih h']
      cases email <;> simp

/-- Scanning a queue whose entries are all banned drops everything,
notifies each entry and then "All accounts" (when an email configuration
is present), and returns no account — the `RuntimeError` path. -/
theorem acquire_scan_all_banned (tbl : List (String × String)) (email : Bool)
    (q : List String) (h : ∀ b ∈ q, get_status tbl b = "banned") :
    acquire_scan tbl email q =
      ⟨none, [], if email then q ++ ["All accounts"] else []⟩ := by
  induction q with
  | nil => cases email <;> simp [acquire_scan]
  | cons b q ih =>
      have hbb : get_status tbl b = "banned" := h b (by simp)
      have h' : ∀ x ∈ q, get_status tbl x = "banned" :=
        fun x hx => h x (by simp [hx])
      have hstep : acquire_scan tbl email (b :: q) =
          ⟨(acquire_scan tbl email q).acquired,
            (acquire_scan tbl email q).queue,
            (if email then [b] else []) ++
              (acquire_scan tbl email q).notifications⟩ := by
        simp [acquire_scan, hbb]
      rw [hstep, ih h']
      cases email <;> simp

/-- Updating the status of a name that has a row makes `get_status` read
back the new status. -/
theorem get_status_update_self (tbl : List (String × String)) (n s : String)
    (h : (tbl.find? (fun p => p.1 == n)).isSome = true) :
    get_status (update_account_status tbl n s) n = s := by
  induction tbl with
  | nil => simp at h
  | cons p tbl ih =>
      by_cases hp : p.1 = n
      · simp [update_account_status, get_status, hp]
      · have hp' : (p.1 == n) = false := by simp [hp]
        rw [List.find?_cons_of_neg _ (by simp [hp])] at h
        have := ih h
        simp only [update_account_status, List.map_cons, hp', if_false,
          get_status] at this ⊢
        rw [List.find?_cons_of_neg _ (by simp [hp])]
        exact this

/-! ## Claim C1 -/

/-- C1, counterexample.  With memberships for `A` and `B` on channel `c`
and a lock held by `A` since `t = 100`, the lock is still live at
`t = 110` under the default 300-second timeout (first conjunct), yet a
second acquisition by `B` succeeds and replaces the stored holder with
`B` (second conjunct) — contradicting the claim that the second attempt
returns false without overwriting the existing holder. -/
theorem C1_second_acquire_overwrites_counterexample :
    (is_channel_locked ⟨[], [⟨"A", "c", 0, 0⟩, ⟨"B", "c", 0, 0⟩],
        [⟨"c", "A", 100⟩]⟩ "c" 300 110).1 = true
    ∧ lock_channel ⟨[], [⟨"A", "c", 0, 0⟩, ⟨"B", "c", 0, 0⟩],
        [⟨"c", "A", 100⟩]⟩ "c" "B" 110
      = (true, ⟨[], [⟨"A", "c", 0, 0⟩, ⟨"B", "c", 0, 0⟩], [⟨"c", "B", 110⟩]⟩) := by
  exact ⟨rfl, rfl⟩

/-- C1 (amended): `lock_channel` gates only on membership and keeps the
one-row-per-channel table invariant, but performs no liveness check: for
every state whose lock table satisfies the primary-key invariant and in
which `account_name` has a membership row for `channel_id`, the call
succeeds, the stored lock row for the channel becomes
`(channel_id, account_name, now)` whatever lock existed before, and the
at-most-one-row-per-channel invariant is preserved. -/
theorem C1_lock_channel_membership_gate (st : DBState)
    (channel_id account_name : String) (now : Int)
    (hm : hasMembership st account_name channel_id = true)
    (hu : locksUnique st) :
    (lock_channel st channel_id account_name now).1 = true
    ∧ findLock (lock_channel st channel_id account_name now).2 channel_id
        = some ⟨channel_id, account_name, now⟩
    ∧ locksUnique (lock_channel st channel_id account_name now).2 := by
  refine ⟨?_, ?_, ?_⟩
  · simp [lock_channel, hm]
  · simp [lock_channel, hm, findLock, List.find?_cons_of_pos]
  · simp only [lock_channel, hm, if_pos]
    unfold locksUnique at hu ⊢
    simp only [List.map_cons, List.nodup_cons]
    exact ⟨not_mem_map_filter_lock st.crawl_locks channel_id,
      nodup_filter_lock st.crawl_locks channel_id hu⟩

/-- C1, witness for `C1_lock_channel_membership_gate` at a concrete state:
one membership row for `B` on `c` and a stale lock row held by `A`. -/
theorem C1_lock_channel_membership_gate_witness :
    (hasMembership ⟨[], [⟨"B", "c", 5, 0⟩], [⟨"c", "A", 1⟩]⟩ "B" "c" = true
      ∧ locksUnique ⟨[], [⟨"B", "c", 5, 0⟩], [⟨"c", "A", 1⟩]⟩)
    ∧ ((lock_channel ⟨[], [⟨"B", "c", 5, 0⟩], [⟨"c", "A", 1⟩]⟩ "c" "B" 9).1 = true
      ∧ findLock (lock_channel ⟨[], [⟨"B", "c", 5, 0⟩], [⟨"c", "A", 1⟩]⟩
          "c" "B" 9).2 "c" = some ⟨"c", "B", 9⟩
      ∧ locksUnique (lock_channel ⟨[], [⟨"B", "c", 5, 0⟩], [⟨"c", "A", 1⟩]⟩
          "c" "B" 9).2) :=
  ⟨⟨by decide, by unfold locksUnique; decide⟩,
    C1_lock_channel_membership_gate ⟨[], [⟨"B", "c", 5, 0⟩], [⟨"c", "A", 1⟩]⟩
      "c" "B" 9 (by decide) (by unfold locksUnique; decide)⟩

/-! ## Claim C2 -/

/-- C2, counterexample.  A lock acquired at `t = 0` checked at `t = 300`
with `timeout = 300`: the claim says a lock is live exactly while
`now - acquiredAt < timeout`, so this lock should already count as
absent, yet `is_channel_locked` still reports the channel locked (its
expiry test is the strict `now - locked_at > timeout`). -/
theorem C2_liveness_boundary_counterexample :
    (is_channel_locked ⟨[], [⟨"A", "chan", 0, 0⟩], [⟨"chan", "A", 0⟩]⟩
        "chan" 300 300).1 = true
    ∧ ¬ ((300 : Int) - 0 < 300) := by
  exact ⟨rfl, by norm_num⟩

/-- C2 (amended): a lock row is live exactly while
`now - locked_at ≤ timeout`.  For every state whose lock row for
`channel_id` is `row`: while `now - row.locked_at ≤ timeout` the channel
reports locked with no state change; once `now - row.locked_at > timeout`
it reports unlocked; and once expired, a `lock_channel` call by any other
holder that has a membership row for the channel succeeds and transfers
the stored holder to it. -/
theorem C2_lock_liveness (st : DBState) (channel_id : String)
    (timeout now : Int) (row : LockRow) (other : String)
    (hrow : findLock st channel_id = some row) :
    (now - row.locked_at ≤ timeout →
      is_channel_locked st channel_id timeout now = (true, st))
    ∧ (now - row.locked_at > timeout →
      (is_channel_locked st channel_id timeout now).1 = false)
    ∧ (hasMembership st other channel_id = true →
      (lock_channel st channel_id other now).1 = true
      ∧ findLock (lock_channel st channel_id other now).2 channel_id
          = some ⟨channel_id, other, now⟩) := by
  unfold findLock at hrow
  refine ⟨?_, ?_, ?_⟩
  · intro h
    simp [is_channel_locked, hrow, not_lt.mpr h]
  · intro h
    simp [is_channel_locked, hrow, h]
  · intro hm
    constructor
    · simp [lock_channel, hm]
    · simp [lock_channel, hm, findLock]

/-- C2, witness for `C2_lock_liveness`: channel `chan` locked by `A` at
`t = 0` with `timeout = 300`, inspected at `t = 301` by holder `B`, who
has a membership row for `chan`. -/
theorem C2_lock_liveness_witness :
    findLock ⟨[], [⟨"B", "chan", 0, 0⟩], [⟨"chan", "A", 0⟩]⟩ "chan"
        = some ⟨"chan", "A", 0⟩
    ∧ (((301 : Int) - 0 ≤ 300 →
        is_channel_locked ⟨[], [⟨"B", "chan", 0, 0⟩], [⟨"chan", "A", 0⟩]⟩
          "chan" 300 301
          = (true, ⟨[], [⟨"B", "chan", 0, 0⟩], [⟨"chan", "A", 0⟩]⟩))
      ∧ ((301 : Int) - 0 > 300 →
        (is_channel_locked ⟨[], [⟨"B", "chan", 0, 0⟩], [⟨"chan", "A", 0⟩]⟩
          "chan" 300 301).1 = false)
      ∧ (hasMembership ⟨[], [⟨"B", "chan", 0, 0⟩], [⟨"chan", "A", 0⟩]⟩
            "B" "chan" = true →
        (lock_channel ⟨[], [⟨"B", "chan", 0, 0⟩], [⟨"chan", "A", 0⟩]⟩
            "chan" "B" 301).1 = true
        ∧ findLock (lock_channel ⟨[], [⟨"B", "chan", 0, 0⟩],
            [⟨"chan", "A", 0⟩]⟩ "chan" "B" 301).2 "chan"
          = some ⟨"chan", "B", 301⟩)) :=
  ⟨by decide,
    C2_lock_liveness ⟨[], [⟨"B", "chan", 0, 0⟩], [⟨"chan", "A", 0⟩]⟩
      "chan" 300 301 ⟨"chan", "A", 0⟩ "B" (by decide)⟩

/-! ## Claim C8 -/

/-- C8, counterexample.  `is_channel_locked` is not read-only: on a lock
acquired at `t = 0` and inspected at `t = 400` with `timeout = 300`, the
call reports unlocked and DELETEs the lock row, so the state after the
call differs from the state before it. -/
theorem C8_isLocked_mutates_counterexample :
    is_channel_locked ⟨[], [], [⟨"chan8", "A", 0⟩]⟩ "chan8" 300 400
      = (false, ⟨[], [], []⟩)
    ∧ (is_channel_locked ⟨[], [], [⟨"chan8", "A", 0⟩]⟩ "chan8" 300 400).2
      ≠ ⟨[], [], [⟨"chan8", "A", 0⟩]⟩ := by
  exact ⟨rfl, by decide⟩

/-- C8 (amended): `is_channel_locked` leaves the state unchanged when no
lock row exists for the channel or when the lock is still live; when the
lock is expired (`now - locked_at > timeout`) it deletes that channel's
lock row — and nothing else: the accounts and membership tables are
untouched in every case — and returns false. -/
theorem C8_isLocked_frame (st : DBState) (channel_id : String)
    (timeout now : Int) :
    (findLock st channel_id = none →
      is_channel_locked st channel_id timeout now = (false, st))
    ∧ (∀ row, findLock st channel_id = some row →
      now - row.locked_at ≤ timeout →
      is_channel_locked st channel_id timeout now = (true, st))
    ∧ (∀ row, findLock st channel_id = some row →
      now - row.locked_at > timeout →
      is_channel_locked st channel_id timeout now = (false,
        { st with crawl_locks :=
            st.crawl_locks.filter (fun r => !(r.channel_id == channel_id)) }))
    ∧ (is_channel_locked st channel_id timeout now).2.accounts = st.accounts
    ∧ (is_channel_locked st channel_id timeout now).2.account_channels
        = st.account_channels := by
  refine ⟨?_, ?_, ?_, ?_, ?_⟩
  · intro h
    unfold findLock at h
    simp [is_channel_locked, h]
  · intro row h hl
    unfold findLock at h
    simp [is_channel_locked, h, not_lt.mpr hl]
  · intro row h hl
    unfold findLock at h
    simp [is_channel_locked, h, hl]
  · unfold is_channel_locked
    rcases hf : st.crawl_locks.find? (fun r => r.channel_id == channel_id) with
      _ | row
    · simp [hf]
    · by_cases hl : now - row.locked_at > timeout <;> simp [hf, hl]
  · unfold is_channel_locked
    rcases hf : st.crawl_locks.find? (fun r => r.channel_id == channel_id) with
      _ | row
    · simp [hf]
    · by_cases hl : now - row.locked_at > timeout <;> simp [hf, hl]

/-- C8, witness for `C8_isLocked_frame` at a concrete state, discharging
the live-lock hypothesis at `now = 100`. -/
theorem C8_isLocked_frame_witness :
    findLock ⟨[⟨"A", 1, "h", "available"⟩], [], [⟨"chan8", "A", 50⟩]⟩ "chan8"
        = some ⟨"chan8", "A", 50⟩
    ∧ ((100 : Int) - 50 ≤ 300)
    ∧ is_channel_locked ⟨[⟨"A", 1, "h", "available"⟩], [], [⟨"chan8", "A", 50⟩]⟩
        "chan8" 300 100
      = (true, ⟨[⟨"A", 1, "h", "available"⟩], [], [⟨"chan8", "A", 50⟩]⟩) :=
  ⟨by decide, by norm_num,
    (C8_isLocked_frame ⟨[⟨"A", 1, "h", "available"⟩], [], [⟨"chan8", "A", 50⟩]⟩
      "chan8" 300 100).2.1 ⟨"chan8", "A", 50⟩ (by decide) (by norm_num)⟩

/-! ## Claim C9 -/

/-- C9: `update_channel_crawl` records a crawl timestamp only on a
pre-existing membership row: when no `account_channels` row exists for
`(account_name, channel_id)` the whole state is unchanged, and in every
case the operation creates no row (the membership table keeps its length
and its keys). -/
theorem C9_crawl_update_requires_membership (st : DBState)
    (account_name channel_id : String) (last_crawled : Int) :
    (hasMembership st account_name channel_id = false →
      update_channel_crawl st account_name channel_id last_crawled = st)
    ∧ (update_channel_crawl st account_name channel_id
        last_crawled).account_channels.length
      = st.account_channels.length
    ∧ (update_channel_crawl st account_name channel_id
        last_crawled).account_channels.map
          (fun r => (r.account_name, r.channel_id))
      = st.account_channels.map (fun r => (r.account_name, r.channel_id)) := by
  refine ⟨?_, ?_, ?_⟩
  · intro h
    unfold hasMembership at h
    have hall : ∀ r ∈ st.account_channels,
        (r.account_name == account_name && r.channel_id == channel_id) = false := by
      intro r hr
      by_contra hc
      have hc' : (r.account_name == account_name && r.channel_id == channel_id)
          = true := by
        revert hc
        cases r.account_name == account_name && r.channel_id == channel_id <;>
          simp
      have : st.account_channels.any
          (fun r => r.account_name == account_name && r.channel_id == channel_id)
          = true := List.any_eq_true.mpr ⟨r, hr, hc'⟩
      rw [h] at this
      exact Bool.false_ne_true this
    unfold update_channel_crawl
    have hmap : st.account_channels.map (fun r =>
        if r.account_name == account_name && r.channel_id == channel_id then
          { r with last_crawled := last_crawled }
        else r) = st.account_channels := by
      refine map_id_of_mem _ _ ?_
      intro r hr
      simp [hall r hr]
    rw [hmap]
  · simp [update_channel_crawl]
  · unfold update_channel_crawl
    simp only
    rw [List.map_map]
    refine map_congr_mem _ _ _ ?_
    intro r _
    by_cases h : r.account_name = account_name ∧ r.channel_id = channel_id <;>
      simp [h]

/-- C9, witness for `C9_crawl_update_requires_membership`: a state whose
only membership row is `("A", "c1")`, updated for the pair `("A", "c2")`
which has no row: the state is returned unchanged. -/
theorem C9_crawl_update_requires_membership_witness :
    hasMembership ⟨[], [⟨"A", "c1", 3, 0⟩], []⟩ "A" "c2" = false
    ∧ update_channel_crawl ⟨[], [⟨"A", "c1", 3, 0⟩], []⟩ "A" "c2" 999
      = ⟨[], [⟨"A", "c1", 3, 0⟩], []⟩ :=
  ⟨by decide,
    (C9_crawl_update_requires_membership ⟨[], [⟨"A", "c1", 3, 0⟩], []⟩
      "A" "c2" 999).1 (by decide)⟩

/-! ## Claim C10 -/

/-- C10: `lock_channel` requires prior membership: for every state, channel
and holder, when no membership row exists for `(account_name, channel_id)`
the call returns false and the state — in particular the lock table — is
completely unchanged, whatever locks exist. -/
theorem C10_lock_requires_membership (st : DBState)
    (channel_id account_name : String) (now : Int)
    (h : hasMembership st account_name channel_id = false) :
    lock_channel st channel_id account_name now = (false, st) := by
  simp [lock_channel, h]

/-- C10, witness for `C10_lock_requires_membership`: account `X` has no
membership row for `c9`, so its lock attempt fails and writes nothing,
even though the channel is currently unlocked. -/
theorem C10_lock_requires_membership_witness :
    hasMembership ⟨[], [⟨"Y", "c9", 0, 0⟩], []⟩ "X" "c9" = false
    ∧ lock_channel ⟨[], [⟨"Y", "c9", 0, 0⟩], []⟩ "c9" "X" 77
      = (false, ⟨[], [⟨"Y", "c9", 0, 0⟩], []⟩) :=
  ⟨by decide,
    C10_lock_requires_membership ⟨[], [⟨"Y", "c9", 0, 0⟩], []⟩ "c9" "X" 77
      (by decide)⟩

/-! ## Claim C3 -/

/-- C3, counterexample.  With two active accounts `a` and `b` queued, the
claim asks `acquire` to choose uniformly at random among them and to
transition the chosen identity to `InUse`; but `get_active_account`
deterministically returns the queue head `a` (never `b`), and the status
table after the call is the one before it, so the returned identity is
still `active` rather than in any in-use state. -/
theorem C3_acquire_not_random_counterexample :
    (get_active_account [("a", "active"), ("b", "active")] true
        ["a", "b"]).1.acquired = some "a"
    ∧ ¬ (get_active_account [("a", "active"), ("b", "active")] true
        ["a", "b"]).1.acquired = some "b"
    ∧ (get_active_account [("a", "active"), ("b", "active")] true
        ["a", "b"]).2 = [("a", "active"), ("b", "active")]
    ∧ get_status (get_active_account [("a", "active"), ("b", "active")] true
        ["a", "b"]).2 "a" = "active" := by
  exact ⟨by decide, by decide, by decide, by decide⟩

/-- C3 (amended): `get_active_account` scans the queue in FIFO order: it
drops (and, with an email configuration, notifies) every leading banned
entry, returns the first non-banned entry re-enqueued at the back, and
leaves the status table untouched — the returned identity keeps its
status.  It fails (the `RuntimeError` path, `acquired = none`) exactly
when every queued entry is banned, in which case an `"All accounts"`
notification is also emitted. -/
theorem C3_acquire_fifo (tbl : List (String × String)) (email : Bool)
    (bs : List String) (a : String) (rest q : List String)
    (hb : ∀ b ∈ bs, get_status tbl b = "banned")
    (ha : get_status tbl a ≠ "banned")
    (hq : ∀ b ∈ q, get_status tbl b = "banned") :
    get_active_account tbl email (bs ++ a :: rest)
      = (⟨some a, rest ++ [a], if email then bs else []⟩, tbl)
    ∧ get_active_account tbl email q
      = (⟨none, [], if email then q ++ ["All accounts"] else []⟩, tbl) := by
  constructor
  · unfold get_active_account
    rw [acquire_scan_drop_banned tbl email bs a rest hb ha]
  · unfold get_active_account
    rw [acquire_scan_all_banned tbl email q hq]

/-- C3, witness for `C3_acquire_fifo`: a queue `[b1, a1]` with `b1` banned
and `a1` active, and a fully banned queue `[b1]`. -/
theorem C3_acquire_fifo_witness :
    ((∀ b ∈ ["b1"], get_status [("b1", "banned"), ("a1", "active")] b = "banned")
      ∧ get_status [("b1", "banned"), ("a1", "active")] "a1" ≠ "banned"
      ∧ (∀ b ∈ ["b1"], get_status [("b1", "banned"), ("a1", "active")] b = "banned"))
    ∧ (get_active_account [("b1", "banned"), ("a1", "active")] true
          (["b1"] ++ "a1" :: [])
        = (⟨some "a1", [] ++ ["a1"], if true then ["b1"] else []⟩,
            [("b1", "banned"), ("a1", "active")])
      ∧ get_active_account [("b1", "banned"), ("a1", "active")] true ["b1"]
        = (⟨none, [], if true then ["b1"] ++ ["All accounts"] else []⟩,
            [("b1", "banned"), ("a1", "active")])) :=
  ⟨⟨by decide, by decide, by decide⟩,
    C3_acquire_fifo [("b1", "banned"), ("a1", "active")] true ["b1"] "a1" [] ["b1"]
      (by decide) (by decide) (by decide)⟩

/-! ## Claim C4 -/

/-- C4, counterexample.  A rate-limit signal does change the status of the
identity: on an exception whose text contains `FloodWait`,
`Account.scrape_messages` sets `self.is_banned = True` and persists
status `banned` for the account, here taking `acc2` from `active` to
`banned`. -/
theorem C4_floodwait_marks_banned_counterexample :
    (scrape_messages [("acc2", "active")] "acc2" false
        (.err "FloodWaitError: A wait of 100 seconds is required (caused by GetHistoryRequest)")).is_banned
      = true
    ∧ get_status (scrape_messages [("acc2", "active")] "acc2" false
        (.err "FloodWaitError: A wait of 100 seconds is required (caused by GetHistoryRequest)")).statusTable
        "acc2"
      = "banned"
    ∧ get_status [("acc2", "active")] "acc2" = "active" := by
  exact ⟨by decide, by decide, by decide⟩

/-- C4 (amended): the handlers do not implement release-sleep-retry.  The
`FloodWaitError` branch of `telegram_scraper.scrape_channel` performs
exactly one action — sleeping the signalled number of seconds — with no
release and no re-dispatch of the channel, so the channel is not retried
in the cycle; and a FloodWait error inside `Account.scrape_messages`
marks the identity banned (returning no messages), so a rate-limit signal
does change the status there. -/
theorem C4_rate_limit_behavior (channel account : String)
    (lastActive rejoin_ok : Bool) (s : ℚ)
    (tbl : List (String × String)) (name m : String)
    (hm : strContains m "FloodWait" = true) :
    scrape_channel_on_error channel account lastActive rejoin_ok (.floodWait s)
      = [.sleepSeconds s]
    ∧ scrape_messages tbl name false (.err m)
      = ⟨[], true, mark_banned tbl name, []⟩ := by
  refine ⟨rfl, ?_⟩
  simp [scrape_messages, hm, mark_banned]

/-- C4, witness for `C4_rate_limit_behavior` on a concrete FloodWait
message string. -/
theorem C4_rate_limit_behavior_witness :
    strContains "FloodWaitError: A wait of 30 seconds is required" "FloodWait"
      = true
    ∧ scrape_channel_on_error "chanF" "accF" false true (.floodWait 30)
      = [.sleepSeconds 30]
    ∧ scrape_messages [("accF", "active")] "accF" false
        (.err "FloodWaitError: A wait of 30 seconds is required")
      = ⟨[], true, mark_banned [("accF", "active")] "accF", []⟩ :=
  ⟨by decide,
    C4_rate_limit_behavior "chanF" "accF" false true 30 [("accF", "active")]
      "accF" "FloodWaitError: A wait of 30 seconds is required" (by decide)⟩

/-! ## Claim C5 -/

/-- C5, counterexample.  The first marking call does not trigger the ban
notification: the ban branch of `Account.scrape_messages` persists the
`banned` status but performs zero `send_ban_notification` calls, so its
notification count is 0, not 1. -/
theorem C5_mark_banned_no_notification_counterexample :
    scrape_messages [("acc1", "active")] "acc1" false
        (.err "UserBannedInChannelError: banned in the channel (caused by GetHistoryRequest)")
      = ⟨[], true, [("acc1", "banned")], []⟩
    ∧ ¬ (scrape_messages [("acc1", "active")] "acc1" false
        (.err "UserBannedInChannelError: banned in the channel (caused by GetHistoryRequest)")).notifications.length
      = 1 := by
  exact ⟨by decide, by decide⟩

/-- C5 (amended): marking banned is idempotent on status but sends no
notification itself; the one notification comes later from the acquire
loop.  Concretely: repeating the status write changes nothing; with a row
present the persisted status reads back `banned`; a repeated
`scrape_messages` call on an already-banned account is a no-op that
returns `[]` and notifies nobody; and the acquire loop notifies a banned
identity exactly once — it drops it from the queue while notifying, so a
second acquisition on the resulting queue emits no further notification
for it. -/
theorem C5_mark_banned_idempotent (tbl : List (String × String))
    (n a : String) (outcome : FetchOutcome)
    (hrow : (tbl.find? (fun p => p.1 == n)).isSome = true)
    (hn : get_status tbl n = "banned")
    (ha : get_status tbl a ≠ "banned") :
    mark_banned (mark_banned tbl n) n = mark_banned tbl n
    ∧ get_status (mark_banned tbl n) n = "banned"
    ∧ scrape_messages tbl n true outcome = ⟨[], true, tbl, []⟩
    ∧ get_active_account tbl true [n, a] = (⟨some a, [a], [n]⟩, tbl)
    ∧ get_active_account tbl true [a] = (⟨some a, [a], []⟩, tbl) := by
  refine ⟨?_, ?_, rfl, ?_, ?_⟩
  · unfold mark_banned update_account_status
    rw [List.map_map]
    refine map_congr_mem _ _ _ ?_
    intro p _
    by_cases hp : p.1 = n <;> simp [hp]
  · exact get_status_update_self tbl n "banned" hrow
  · unfold get_active_account
    have hsplit : [n, a] = [n] ++ a :: [] := rfl
    rw [hsplit, acquire_scan_drop_banned tbl true [n] a []
      (by intro b hb; simp at hb; subst hb; exact hn) ha]
    simp
  · unfold get_active_account
    have h5 := acquire_scan_drop_banned tbl true [] a [] (by simp) ha
    simp only [List.nil_append] at h5
    rw [h5]
    simp

/-- C5, witness for `C5_mark_banned_idempotent` on a two-account table
with `n1` banned and `a1` active. -/
theorem C5_mark_banned_idempotent_witness :
    (([("n1", "banned"), ("a1", "active")].find?
        (fun p => p.1 == "n1")).isSome = true
      ∧ get_status [("n1", "banned"), ("a1", "active")] "n1" = "banned"
      ∧ get_status [("n1", "banned"), ("a1", "active")] "a1" ≠ "banned")
    ∧ (mark_banned (mark_banned [("n1", "banned"), ("a1", "active")] "n1") "n1"
        = mark_banned [("n1", "banned"), ("a1", "active")] "n1"
      ∧ get_status (mark_banned [("n1", "banned"), ("a1", "active")] "n1") "n1"
        = "banned"
      ∧ scrape_messages [("n1", "banned"), ("a1", "active")] "n1" true
          (.ok ["hello"]) = ⟨[], true, [("n1", "banned"), ("a1", "active")], []⟩
      ∧ get_active_account [("n1", "banned"), ("a1", "active")] true ["n1", "a1"]
        = (⟨some "a1", ["a1"], ["n1"]⟩, [("n1", "banned"), ("a1", "active")])
      ∧ get_active_account [("n1", "banned"), ("a1", "active")] true ["a1"]
        = (⟨some "a1", ["a1"], []⟩, [("n1", "banned"), ("a1", "active")])) :=
  ⟨⟨by decide, by decide, by decide⟩,
    C5_mark_banned_idempotent [("n1", "banned"), ("a1", "active")] "n1" "a1"
      (.ok ["hello"]) (by decide) (by decide) (by decide)⟩

/-! ## Claim C6 -/

/-- C6: the crawl tier of the scheduler loop.  Whenever at least one
identity is non-banned, the cycle selection of `telegram_scraper.main` is
fallback exactly when the non-banned count is 1 — scraping the first
`FALLBACK_CHANNEL_LIMIT` (5) channels of the priority-ordered list when
one is configured (non-empty) and the first 5 of the full list otherwise,
at the fallback interval — and normal (all configured channels, normal
interval) whenever the count exceeds 1. -/
theorem C6_tier_selection (tbl : List (String × String))
    (all_channels priority_channels : List String)
    (h : 1 ≤ active_count tbl) :
    (active_count tbl = 1 →
      select_cycle (active_count tbl) all_channels priority_channels
        = some (FALLBACK_INTERVAL,
            if priority_channels.isEmpty then
              all_channels.take FALLBACK_CHANNEL_LIMIT
            else priority_channels.take FALLBACK_CHANNEL_LIMIT))
    ∧ (1 < active_count tbl →
      select_cycle (active_count tbl) all_channels priority_channels
        = some (NORMAL_INTERVAL, all_channels)) := by
  constructor
  · intro h1
    simp [select_cycle, h1]
  · intro h1
    have h0 : ¬ active_count tbl < 1 := by omega
    have h2 : active_count tbl ≠ 1 := by omega
    simp [select_cycle, h0, h2]

/-- C6, witness for `C6_tier_selection`: a single active account among one
banned, with a configured priority list of six channels: fallback takes
the first five priority channels. -/
theorem C6_tier_selection_witness :
    1 ≤ active_count [("x", "active"), ("y", "banned")]
    ∧ ((active_count [("x", "active"), ("y", "banned")] = 1 →
        select_cycle (active_count [("x", "active"), ("y", "banned")])
          ["c1", "c2", "c3", "c4", "c5", "c6", "c7"]
          ["p1", "p2", "p3", "p4", "p5", "p6"]
        = some (FALLBACK_INTERVAL,
            if (["p1", "p2", "p3", "p4", "p5", "p6"] : List String).isEmpty then
              (["c1", "c2", "c3", "c4", "c5", "c6", "c7"] : List String).take
                FALLBACK_CHANNEL_LIMIT
            else (["p1", "p2", "p3", "p4", "p5", "p6"] : List String).take
                FALLBACK_CHANNEL_LIMIT))
      ∧ (1 < active_count [("x", "active"), ("y", "banned")] →
        select_cycle (active_count [("x", "active"), ("y", "banned")])
          ["c1", "c2", "c3", "c4", "c5", "c6", "c7"]
          ["p1", "p2", "p3", "p4", "p5", "p6"]
        = some (NORMAL_INTERVAL, ["c1", "c2", "c3", "c4", "c5", "c6", "c7"]))) :=
  ⟨by decide,
    C6_tier_selection [("x", "active"), ("y", "banned")]
      ["c1", "c2", "c3", "c4", "c5", "c6", "c7"]
      ["p1", "p2", "p3", "p4", "p5", "p6"] (by decide)⟩

/-! ## Claim C7 -/

/-- C7, counterexample.  A failed join call skips the delay: when the
`JoinChannelRequest` raises, `Account.join_channel` propagates the
exception before reaching the sleep, so the trace of the call contains
the join request and no sleep action at all — the next join by the same
identity follows with no enforced delay. -/
theorem C7_failed_join_skips_delay_counterexample :
    join_channel "chanX" false 5 = [.joinRequest "chanX"]
    ∧ (join_channel "chanX" false 5).filter isSleep = [] := by
  exact ⟨rfl, rfl⟩

/-- C7 (amended): after every successful join call an enforced random
delay is inserted before anything further — drawn from
`random.uniform(3, 7)` in `Account.join_channel` and from
`random.uniform(5, 15)` in the scheduler's `join_channel` — and every
such delay lies within 3 to 15 seconds; a failed join raises or returns
immediately without the delay. -/
theorem C7_join_delay (channel channel2 : String) (d e : ℚ)
    (hd : 3 ≤ d ∧ d ≤ 7) (he : 5 ≤ e ∧ e ≤ 15) :
    join_channel channel true d
      = [.joinRequest channel, .addChannelDb channel, .sleepSeconds d]
    ∧ (3 ≤ d ∧ d ≤ 15)
    ∧ (sched_join_channel channel2 true e).2
      = [.joinRequest channel2, .sleepSeconds e]
    ∧ (3 ≤ e ∧ e ≤ 15) := by
  refine ⟨rfl, ⟨hd.1, le_trans hd.2 (by norm_num)⟩, rfl,
    ⟨le_trans (by norm_num) he.1, he.2⟩⟩

/-- C7, witness for `C7_join_delay` at delays of 5 and 10 seconds. -/
theorem C7_join_delay_witness :
    ((3 ≤ (5 : ℚ) ∧ (5 : ℚ) ≤ 7) ∧ (5 ≤ (10 : ℚ) ∧ (10 : ℚ) ≤ 15))
    ∧ (join_channel "chanY" true 5
        = [.joinRequest "chanY", .addChannelDb "chanY", .sleepSeconds 5]
      ∧ (3 ≤ (5 : ℚ) ∧ (5 : ℚ) ≤ 15)
      ∧ (sched_join_channel "chanZ" true 10).2
        = [.joinRequest "chanZ", .sleepSeconds 10]
      ∧ (3 ≤ (10 : ℚ) ∧ (10 : ℚ) ≤ 15)) :=
  ⟨⟨⟨by norm_num, by norm_num⟩, ⟨by norm_num, by norm_num⟩⟩,
    C7_join_delay "chanY" "chanZ" 5 10 ⟨by norm_num, by norm_num⟩
      ⟨by norm_num, by norm_num⟩⟩

end SecGram
